/-
  Verification of the data-processing pipeline of school-merit-visualizer
  (src/scripts/fetch-schools.ts, current version: the process-data script).

  The TypeScript source is shallowly embedded: JS numbers are modelled as `Rat`
  (all values handled by the pipeline are finite decimal numerals; `NaN` is
  modelled as `none` of `Option Rat`), JS `null`/`undefined` as `Option.none`,
  and JSON objects as structures whose optional fields are `Option`s.
-/
import Mathlib

set_option maxRecDepth 8000

/-! ## JS primitives used by the script -/

/-- One time-stamped observation, as delivered by the statistics API
(`interface StatValue`): a locale-formatted numeric string, a validity
marker (`"EXISTS"` when the value is usable) and a time-period label. -/
structure StatValue where
  value : String
  valueType : String
  timePeriod : String
deriving DecidableEq, Repr

/-- Characters skipped by `parseFloat` before the numeral (ASCII whitespace). -/
def jsWhitespace (c : Char) : Bool :=
  c = ' ' || c = '\t' || c = '\n' || c = '\r'

/-- Split a character list into its maximal leading run of decimal digits
and the rest. -/
def takeDigits : List Char → List Char × List Char
  | [] => ([], [])
  | c :: t =>
    if c.isDigit then
      let (d, r) := takeDigits t
      (c :: d, r)
    else ([], c :: t)

/-- Numeric value of a list of decimal digits. -/
def digitsVal (l : List Char) : Nat :=
  l.foldl (fun a c => a * 10 + (c.toNat - 48)) 0

/-- Exponent part of a JS float literal (`e`/`E` already consumed): an optional
sign followed by digits; if no digit follows, the exponent marker is not part
of the parsed prefix and contributes exponent 0. -/
def jsExpPart : List Char → Int
  | '-' :: u =>
    let (d, _) := takeDigits u
    if d.isEmpty then 0 else -(digitsVal d : Int)
  | '+' :: u =>
    let (d, _) := takeDigits u
    if d.isEmpty then 0 else (digitsVal d : Int)
  | u =>
    let (d, _) := takeDigits u
    if d.isEmpty then 0 else (digitsVal d : Int)

/-- Model of JavaScript `parseFloat`: skip leading whitespace, read an optional
sign, then the longest prefix that is a decimal numeral (digits, optional
fraction, optional exponent); at least one digit must appear in the integer or
fraction part, otherwise the result is `NaN`, modelled as `none`. The
`Infinity` literal is not modelled (no pipeline input encodes an infinity). -/
def jsParseFloat (s : String) : Option Rat :=
  let l := s.data.dropWhile jsWhitespace
  let (sign, l1) : Rat × List Char :=
    match l with
    | '-' :: t => (-1, t)
    | '+' :: t => (1, t)
    | _ => (1, l)
  let (ip, l2) := takeDigits l1
  let (fp, l3) : List Char × List Char :=
    match l2 with
    | '.' :: t => takeDigits t
    | _ => ([], l2)
  if ip.isEmpty && fp.isEmpty then none
  else
    let base : Rat := (digitsVal ip : Rat) + (digitsVal fp : Rat) / (10 : Rat) ^ fp.length
    let e : Int :=
      match l3 with
      | 'e' :: t => jsExpPart t
      | 'E' :: t => jsExpPart t
      | _ => 0
    if 0 ≤ e then some (sign * (base * (10 : Rat) ^ e.toNat))
    else some (sign * (base / (10 : Rat) ^ (-e).toNat))

/-- Model of JS `value.replace(',', '.')` with a string pattern: only the
first occurrence of the comma is replaced. -/
def replaceFirstComma (s : String) : String :=
  ⟨go s.data⟩
where
  go : List Char → List Char
    | [] => []
    | c :: t => if c = ',' then '.' :: t else c :: go t

/-- `parseSwedishNumber` (fetch-schools.ts): the argument is
`string | undefined` (`none` models `undefined`); falsy input (empty string or
`undefined`) and the sentinels `"."`/`"-"` yield `null`; otherwise the comma is
mapped to a period and the result parsed with `parseFloat`, `NaN` becoming
`null`. -/
def parseSwedishNumber : Option String → Option Rat
  | none => none
  | some v =>
    if v = "" ∨ v = "." ∨ v = "-" then none
    else jsParseFloat (replaceFirstComma v)

/-- Inner loop of `getMostRecentValue`: the first entry whose validity marker
is `EXISTS` is parsed and returned; later entries are not consulted. -/
def firstExistsValue : List StatValue → Option Rat
  | [] => none
  | e :: t =>
    if e.valueType = "EXISTS" then parseSwedishNumber (some e.value)
    else firstExistsValue t

/-- `getMostRecentValue` (fetch-schools.ts): `null` for a missing or empty
sequence, otherwise the parsed value of the first `EXISTS` entry, `null` if no
entry qualifies. -/
def getMostRecentValue : Option (List StatValue) → Option Rat
  | none => none
  | some data =>
    if data.length = 0 then none
    else firstExistsValue data

/-- One entry of the output merit history (`{ year: string; value: number }`). -/
structure HistoryEntry where
  year : String
  value : Rat
deriving DecidableEq, Repr

/-- `getMeritHistory` (fetch-schools.ts): keep the `EXISTS` entries in order,
map each to `{year, value}` with an unparseable value coerced to `0` by
`parseSwedishNumber(entry.value) || 0`, and truncate to the first 5. -/
def getMeritHistory : Option (List StatValue) → List HistoryEntry
  | none => []
  | some data =>
    (((data.filter (fun e => e.valueType == "EXISTS")).map
      (fun e => HistoryEntry.mk e.timePeriod ((parseSwedishNumber (some e.value)).getD 0))).take 5)

/-! ## Input data model (raw snapshot records) -/

/-- Compact listing record (`interface CompactSchoolUnit`). -/
structure CompactSchoolUnit where
  schoolUnitCode : String
  schoolUnitName : String
  wgs84Latitude : String
  wgs84Longitude : String
  abroadSchool : Bool
deriving DecidableEq, Repr

/-- One typed address in a detail record's contact info. -/
structure ContactAddress where
  type : String
  street : Option String
  zipCode : Option String
  city : Option String
deriving DecidableEq, Repr

/-- `contactInfo` sub-object of a detail record. -/
structure ContactInfo where
  addresses : Option (List ContactAddress)
deriving DecidableEq, Repr

/-- One schooling-type descriptor (`interface TypeOfSchooling`). -/
structure TypeOfSchooling where
  code : String
  displayName : String
  schoolYears : List String
deriving DecidableEq, Repr

/-- Per-entity detail record (`interface SchoolDetailBody`). -/
structure SchoolDetailBody where
  code : String
  name : String
  principalOrganizerType : Option String
  typeOfSchooling : Option (List TypeOfSchooling)
  contactInfo : Option ContactInfo
  geographicalAreaCode : Option String
deriving DecidableEq, Repr

/-- Grundskola statistics body (`interface GrundskoleStatisticsBody`).
`extraKeys` models the TS index signature `[key: string]: unknown`: the names
of any further keys present on the JSON object, so that
`Object.keys(stats).length` can be modelled faithfully. -/
structure GrundskoleStatisticsBody where
  averageGradesMeritRating9thGrade : Option (List StatValue)
  ratioOfPupilsIn9thGradeWithAllSubjectsPassed : Option (List StatValue)
  ratioOfPupilsIn6thGradeWithAllSubjectsPassed : Option (List StatValue)
  averageResultNationalTestsSubjectSVE6thGrade : Option (List StatValue)
  averageResultNationalTestsSubjectENG6thGrade : Option (List StatValue)
  averageResultNationalTestsSubjectMA6thGrade : Option (List StatValue)
  studentsPerTeacherQuota : Option (List StatValue)
  certifiedTeachersQuota : Option (List StatValue)
  totalNumberOfPupils : Option (List StatValue)
  extraKeys : List String
deriving DecidableEq, Repr

/-- `Object.keys(stats).length > 0`: some field is present on the JSON
object (absent optional fields produce no key). -/
def GrundskoleStatisticsBody.hasAnyKey (s : GrundskoleStatisticsBody) : Bool :=
  s.averageGradesMeritRating9thGrade.isSome ||
  s.ratioOfPupilsIn9thGradeWithAllSubjectsPassed.isSome ||
  s.ratioOfPupilsIn6thGradeWithAllSubjectsPassed.isSome ||
  s.averageResultNationalTestsSubjectSVE6thGrade.isSome ||
  s.averageResultNationalTestsSubjectENG6thGrade.isSome ||
  s.averageResultNationalTestsSubjectMA6thGrade.isSome ||
  s.studentsPerTeacherQuota.isSome ||
  s.certifiedTeachersQuota.isSome ||
  s.totalNumberOfPupils.isSome ||
  !s.extraKeys.isEmpty

/-- Per-program gymnasium metrics (`interface GymnasiumProgramMetric`). -/
structure GymnasiumProgramMetric where
  programCode : String
  ratioOfStudentsEligibleForUndergraduateEducation : Option (List StatValue)
  gradesPointsForStudents : Option (List StatValue)
  gradesPointsForStudentsWithExam : Option (List StatValue)
  ratioOfPupilsWithExamWithin3Years : Option (List StatValue)
  admissionPointsMin : Option (List StatValue)
  admissionPointsAverage : Option (List StatValue)
  totalNumberOfPupils : Option (List StatValue)
deriving DecidableEq, Repr

/-- Gymnasium statistics body (`interface GymnasiumStatisticsBody`). -/
structure GymnasiumStatisticsBody where
  programMetrics : Option (List GymnasiumProgramMetric)
  studentsPerTeacherQuota : Option (List StatValue)
  certifiedTeachersQuota : Option (List StatValue)
  totalNumberOfPupils : Option (List StatValue)
deriving DecidableEq, Repr

/-- One raw-snapshot record (`interface RawSchoolData`); `details`,
`statistics` and `gymnasiumStatistics` may each be `null` (e.g. after a 404
on the corresponding sub-resource). -/
structure RawSchoolData where
  schoolUnitCode : String
  compactData : CompactSchoolUnit
  details : Option SchoolDetailBody
  statistics : Option GrundskoleStatisticsBody
  gymnasiumStatistics : Option GymnasiumStatisticsBody
deriving DecidableEq, Repr

/-! ## Output data model (processed School records) -/

/-- The closed category set (`type SchoolCategory`); `F6`, `F9`, `S79` stand
for the string values `"F-6"`, `"F-9"`, `"7-9"`. -/
inductive SchoolCategory
  | F6
  | F9
  | S79
  | gymnasium
  | anpassad
  | other
deriving DecidableEq, Repr

/-- `'municipal' | 'independent'`. -/
inductive Ownership
  | municipal
  | independent
deriving DecidableEq, Repr

/-- Per-program output record (`interface GymnasiumProgram`). -/
structure GymnasiumProgram where
  code : String
  universityEligibilityRate : Option Rat
  gradePoints : Option Rat
  graduationRate : Option Rat
  admissionPointsAvg : Option Rat
  admissionPointsMin : Option Rat
deriving DecidableEq, Repr

/-- The `statistics` sub-record of an output School. -/
structure SchoolStatistics where
  meritValue : Option Rat
  meritHistory : List HistoryEntry
  passRateGrade9 : Option Rat
  passRateGrade6 : Option Rat
  avgTestSwedish6 : Option Rat
  avgTestEnglish6 : Option Rat
  avgTestMath6 : Option Rat
  universityEligibilityRate : Option Rat
  gradePoints : Option Rat
  graduationRate : Option Rat
  programs : List GymnasiumProgram
  studentsPerTeacher : Option Rat
  certifiedTeachersRatio : Option Rat
  totalPupils : Option Rat
deriving DecidableEq, Repr

/-- Street/postal/city triple of an output School. -/
structure SchoolAddress where
  street : String
  postalCode : String
  city : String
deriving DecidableEq, Repr

/-- One output entity (`interface School`). Coordinates are the two
`parseFloat` results (`none` = `NaN`). -/
structure School where
  id : String
  name : String
  coordinates : Option Rat × Option Rat
  municipality : String
  ownership : Ownership
  category : SchoolCategory
  schoolTypes : List String
  grades : List String
  address : SchoolAddress
  statistics : SchoolStatistics
deriving DecidableEq, Repr

/-! ## String helpers (JS `toLowerCase` / `includes`) -/

/-- Lower-case one character the way JS `toLowerCase` does on the alphabet
occurring in Swedish school names (ASCII letters plus Å, Ä, Ö, É, Ü). -/
def jsToLowerChar (c : Char) : Char :=
  if 'A' ≤ c ∧ c ≤ 'Z' then Char.ofNat (c.toNat + 32)
  else if c = 'Å' then 'å'
  else if c = 'Ä' then 'ä'
  else if c = 'Ö' then 'ö'
  else if c = 'É' then 'é'
  else if c = 'Ü' then 'ü'
  else c

/-- JS `name.toLowerCase()` on the modelled alphabet. -/
def jsToLower (s : String) : String :=
  ⟨s.data.map jsToLowerChar⟩

/-- Does `l` start with `p`? -/
def leadsList : List Char → List Char → Bool
  | [], _ => true
  | _ :: _, [] => false
  | a :: as, b :: bs => a == b && leadsList as bs

/-- Does `hay` contain `sub` as a contiguous run? -/
def hasSubList : List Char → List Char → Bool
  | hay, sub =>
    if leadsList sub hay then true
    else
      match hay with
      | [] => false
      | _ :: t => hasSubList t sub

/-- JS `s.includes(sub)`. -/
def strHas (s sub : String) : Bool :=
  hasSubList s.data sub.data

/-! ## Category classifier (`determineCategory`) -/

/-- `raw.details?.typeOfSchooling || []`. -/
def schoolingOf (raw : RawSchoolData) : List TypeOfSchooling :=
  (raw.details.bind (·.typeOfSchooling)).getD []

/-- `schooling.map(s => s.code)`. -/
def schoolingCodesOf (raw : RawSchoolData) : List String :=
  (schoolingOf raw).map (·.code)

/-- The lowercased entity name used by the classifier. -/
def lowerName (raw : RawSchoolData) : String :=
  jsToLower raw.compactData.schoolUnitName

/-- `gymStats?.programMetrics && gymStats.programMetrics.length > 0`. -/
def hasGymnasiumMetrics (gymStats : Option GymnasiumStatisticsBody) : Bool :=
  match gymStats.bind (·.programMetrics) with
  | none => false
  | some pms => !pms.isEmpty

/-- `arr?.some(v => v.valueType === 'EXISTS')` coerced to a boolean. -/
def hasExistsEntry (o : Option (List StatValue)) : Bool :=
  match o with
  | none => false
  | some l => l.any (fun v => v.valueType == "EXISTS")

/-- `hasGrade9Data` of `determineCategory`: the grade-9 merit score or the
grade-9 pass rate has an `EXISTS` observation. -/
def hasGrade9Signal (stats : Option GrundskoleStatisticsBody) : Bool :=
  hasExistsEntry (stats.bind (·.averageGradesMeritRating9thGrade)) ||
  hasExistsEntry (stats.bind (·.ratioOfPupilsIn9thGradeWithAllSubjectsPassed))

/-- `hasGrade6Data` of `determineCategory`: the grade-6 pass rate or the
grade-6 Swedish national subject test has an `EXISTS` observation (the
English and Math subject tests are not consulted by the source). -/
def hasGrade6Signal (stats : Option GrundskoleStatisticsBody) : Bool :=
  hasExistsEntry (stats.bind (·.ratioOfPupilsIn6thGradeWithAllSubjectsPassed)) ||
  hasExistsEntry (stats.bind (·.averageResultNationalTestsSubjectSVE6thGrade))

/-- Modelled from the spec (§4.6 step 3 wording), for comparison with
`hasGrade6Signal`: a grade-6 metric is "the grade-6 pass rate or any grade-6
subject test" — pass rate, Swedish, English or Math. -/
def grade6SignalSpec (stats : Option GrundskoleStatisticsBody) : Bool :=
  hasExistsEntry (stats.bind (·.ratioOfPupilsIn6thGradeWithAllSubjectsPassed)) ||
  hasExistsEntry (stats.bind (·.averageResultNationalTestsSubjectSVE6thGrade)) ||
  hasExistsEntry (stats.bind (·.averageResultNationalTestsSubjectENG6thGrade)) ||
  hasExistsEntry (stats.bind (·.averageResultNationalTestsSubjectMA6thGrade))

/-- The `schoolingCodes.includes('gr')` block of `determineCategory`:
classification from the grade-years of the `gr` schooling-type record;
`none` when the block falls through. -/
def categoryFromGrundskolaYears (schooling : List TypeOfSchooling)
    (codes : List String) : Option SchoolCategory :=
  if codes.contains "gr" then
    let grSchooling := schooling.find? (fun s => s.code == "gr")
    let grades := (grSchooling.map (·.schoolYears)).getD []
    let hasGrade9 := grades.contains "9"
    let hasGrade6 := grades.contains "6"
    let hasLowGrades := grades.any (fun g => g == "1" || g == "2" || g == "3")
    if hasGrade9 && hasLowGrades then some .F9
    else if hasGrade9 then some .S79
    else if hasGrade6 || hasLowGrades then some .F6
    else none
  else none

/-- The name-pattern fallback of `determineCategory` (the second dash in
`"f–9"`/`"f–6"` is the en dash); `none` when no pattern matches. -/
def categoryFromNamePattern (name : String) : Option SchoolCategory :=
  if strHas name "f-9" || strHas name "f–9" then some .F9
  else if strHas name "f-6" || strHas name "f–6" || strHas name "f-3" then some .F6
  else if strHas name "7-9" || strHas name "högstadium" then some .S79
  else none

/-- `determineCategory` (fetch-schools.ts, lines 755-818): gymnasium by code,
name keyword or presence of program metrics; then anpassad by code or name
keyword; then the statistics-presence signals; then grade-years of the `gr`
record; then name patterns; then `F-6` if any grundskola statistics key is
present; else `other`. -/
def determineCategory (raw : RawSchoolData) : SchoolCategory :=
  if (schoolingCodesOf raw).contains "gy" ||
     strHas (lowerName raw) "gymnasium" ||
     strHas (lowerName raw) "gymnasie" ||
     hasGymnasiumMetrics raw.gymnasiumStatistics then
    .gymnasium
  else if (schoolingCodesOf raw).contains "gran" ||
          strHas (lowerName raw) "anpassad" then
    .anpassad
  else if hasGrade9Signal raw.statistics && hasGrade6Signal raw.statistics then
    .F9
  else if hasGrade9Signal raw.statistics then
    .S79
  else if hasGrade6Signal raw.statistics then
    .F6
  else
    match categoryFromGrundskolaYears (schoolingOf raw) (schoolingCodesOf raw) with
    | some c => c
    | none =>
      match categoryFromNamePattern (lowerName raw) with
      | some c => c
      | none =>
        match raw.statistics with
        | some s => if s.hasAnyKey then .F6 else .other
        | none => .other

/-! ## Gymnasium aggregation -/

/-- `processGymnasiumPrograms` (fetch-schools.ts): map each program metric to
its per-program output record (each field most-recent-value-selected), keeping
only programs with at least one of the three headline fields non-null. -/
def processGymnasiumPrograms (gymStats : Option GymnasiumStatisticsBody) :
    List GymnasiumProgram :=
  match gymStats.bind (·.programMetrics) with
  | none => []
  | some pms =>
    (pms.map (fun pm =>
      { code := pm.programCode
        universityEligibilityRate :=
          getMostRecentValue pm.ratioOfStudentsEligibleForUndergraduateEducation
        gradePoints := getMostRecentValue pm.gradesPointsForStudents
        graduationRate := getMostRecentValue pm.ratioOfPupilsWithExamWithin3Years
        admissionPointsAvg := getMostRecentValue pm.admissionPointsAverage
        admissionPointsMin := getMostRecentValue pm.admissionPointsMin
        : GymnasiumProgram })).filter
      (fun p => p.universityEligibilityRate.isSome ||
                p.gradePoints.isSome ||
                p.graduationRate.isSome)

/-- `calculateGymnasiumAverage` (fetch-schools.ts): mean of the non-null
values of `field` over `programs`; `null` when no program has the field. -/
def calculateGymnasiumAverage (programs : List GymnasiumProgram)
    (field : GymnasiumProgram → Option Rat) : Option Rat :=
  let validValues := programs.filterMap field
  if validValues.length = 0 then none
  else some (validValues.foldl (· + ·) 0 / (validValues.length : Rat))

/-! ## Snapshot assembly (`processSchoolData`) -/

/-- JS `a ?? b` on nullable numbers. -/
def jsNullishOr (a b : Option Rat) : Option Rat :=
  match a with
  | some v => some v
  | none => b

/-- JS `a || dflt` on a possibly-undefined string: `undefined` and the empty
string (both falsy) give the default. -/
def jsStrOr (a : Option String) (dflt : String) : String :=
  match a with
  | none => dflt
  | some s => if s = "" then dflt else s

/-- `[...new Set(grades)]`: deduplicate keeping first occurrences. -/
def jsSetDedupAux : List String → List String → List String
  | [], _ => []
  | a :: t, seen =>
    if seen.contains a then jsSetDedupAux t seen
    else a :: jsSetDedupAux t (a :: seen)

/-- See `jsSetDedupAux`. -/
def jsSetDedup (l : List String) : List String :=
  jsSetDedupAux l []

/-- Model of JS `parseInt(s)` (base 10): optional sign, then the leading run
of decimal digits; `NaN` (no digits) is `none`. -/
def jsParseInt (s : String) : Option Int :=
  let l := s.data.dropWhile jsWhitespace
  match l with
  | '-' :: t =>
    let (d, _) := takeDigits t
    if d.isEmpty then none else some (-(digitsVal d : Int))
  | '+' :: t =>
    let (d, _) := takeDigits t
    if d.isEmpty then none else some (digitsVal d : Int)
  | t =>
    let (d, _) := takeDigits t
    if d.isEmpty then none else some (digitsVal d : Int)

/-- Sort key of the grade-label comparator:
`a === '0' ? -1 : parseInt(a) || 99` (both `NaN` and `0` are falsy, so both
fall back to 99). -/
def gradeKey (a : String) : Int :=
  if a = "0" then -1
  else
    match jsParseInt a with
    | none => 99
    | some n => if n = 0 then 99 else n

/-- Stable insertion of `a` into an already-sorted list, with a JS-style
comparator (`cmp b a ≤ 0` keeps `b` in front of `a`, so elements comparing
equal stay in insertion order). -/
def jsInsertSorted (cmp : α → α → Rat) (a : α) : List α → List α
  | [] => [a]
  | b :: t =>
    if cmp b a ≤ 0 then b :: jsInsertSorted cmp a t
    else a :: b :: t

/-- Model of `Array.prototype.sort(cmp)` for a consistent comparator: the
stable sort (insertion sort inserting elements in original order). -/
def jsSortBy (cmp : α → α → Rat) (l : List α) : List α :=
  l.foldl (fun acc x => jsInsertSorted cmp x acc) []

/-- Grade-label comparator `(a, b) => numA - numB` of `processSchoolData`. -/
def gradeCmp (a b : String) : Rat :=
  ((gradeKey a - gradeKey b : Int) : Rat)

/-- `processSchoolData` (fetch-schools.ts, lines 849-914). -/
def processSchoolData (raw : RawSchoolData) : School :=
  let visitingAddress :=
    (raw.details.bind (fun d => d.contactInfo.bind (·.addresses))).bind
      (List.find? (fun a => a.type == "VISITING_ADDRESS"))
  let schoolTypes :=
    ((raw.details.bind (·.typeOfSchooling)).map (List.map (·.displayName))).getD []
  let grades :=
    ((raw.details.bind (·.typeOfSchooling)).map
      (fun l => l.flatMap (·.schoolYears))).getD []
  let uniqueGrades := jsSortBy gradeCmp (jsSetDedup grades)
  let programs := processGymnasiumPrograms raw.gymnasiumStatistics
  let studentsPerTeacher :=
    jsNullishOr (getMostRecentValue (raw.statistics.bind (·.studentsPerTeacherQuota)))
      (getMostRecentValue (raw.gymnasiumStatistics.bind (·.studentsPerTeacherQuota)))
  let certifiedTeachersRatio :=
    jsNullishOr (getMostRecentValue (raw.statistics.bind (·.certifiedTeachersQuota)))
      (getMostRecentValue (raw.gymnasiumStatistics.bind (·.certifiedTeachersQuota)))
  let totalPupils :=
    jsNullishOr (getMostRecentValue (raw.statistics.bind (·.totalNumberOfPupils)))
      (getMostRecentValue (raw.gymnasiumStatistics.bind (·.totalNumberOfPupils)))
  { id := raw.compactData.schoolUnitCode
    name := raw.compactData.schoolUnitName
    coordinates :=
      (jsParseFloat raw.compactData.wgs84Latitude,
       jsParseFloat raw.compactData.wgs84Longitude)
    municipality := jsStrOr (visitingAddress.bind (·.city)) "Unknown"
    ownership :=
      if raw.details.bind (·.principalOrganizerType) == some "Kommunal" then
        .municipal
      else .independent
    category := determineCategory raw
    schoolTypes := schoolTypes
    grades := uniqueGrades
    address :=
      { street := jsStrOr (visitingAddress.bind (·.street)) ""
        postalCode := jsStrOr (visitingAddress.bind (·.zipCode)) ""
        city := jsStrOr (visitingAddress.bind (·.city)) "" }
    statistics :=
      { meritValue :=
          getMostRecentValue (raw.statistics.bind (·.averageGradesMeritRating9thGrade))
        meritHistory :=
          getMeritHistory (raw.statistics.bind (·.averageGradesMeritRating9thGrade))
        passRateGrade9 :=
          getMostRecentValue
            (raw.statistics.bind (·.ratioOfPupilsIn9thGradeWithAllSubjectsPassed))
        passRateGrade6 :=
          getMostRecentValue
            (raw.statistics.bind (·.ratioOfPupilsIn6thGradeWithAllSubjectsPassed))
        avgTestSwedish6 :=
          getMostRecentValue
            (raw.statistics.bind (·.averageResultNationalTestsSubjectSVE6thGrade))
        avgTestEnglish6 :=
          getMostRecentValue
            (raw.statistics.bind (·.averageResultNationalTestsSubjectENG6thGrade))
        avgTestMath6 :=
          getMostRecentValue
            (raw.statistics.bind (·.averageResultNationalTestsSubjectMA6thGrade))
        universityEligibilityRate :=
          calculateGymnasiumAverage programs (·.universityEligibilityRate)
        gradePoints := calculateGymnasiumAverage programs (·.gradePoints)
        graduationRate := calculateGymnasiumAverage programs (·.graduationRate)
        programs := programs
        studentsPerTeacher := studentsPerTeacher
        certifiedTeachersRatio := certifiedTeachersRatio
        totalPupils := totalPupils } }

/-! ## Output ordering and the full processing pipeline (`main`) -/

/-- Category priority of the output sort (`catOrder`): F-9 first, then 7-9,
F-6, gymnasium, anpassad, other. -/
def catOrder : SchoolCategory → Int
  | .F9 => 0
  | .S79 => 1
  | .F6 => 2
  | .gymnasium => 3
  | .anpassad => 4
  | .other => 5

/-- The performance proxy of the output sort:
`statistics.meritValue ?? statistics.passRateGrade6 ?? 0`. -/
def meritProxy (s : School) : Rat :=
  (jsNullishOr s.statistics.meritValue s.statistics.passRateGrade6).getD 0

/-- The output sort comparator of `main` (fetch-schools.ts, lines 961-972):
category priority ascending, then performance proxy descending. -/
def schoolCompare (a b : School) : Rat :=
  if catOrder a.category ≠ catOrder b.category then
    ((catOrder a.category - catOrder b.category : Int) : Rat)
  else meritProxy b - meritProxy a

/-- The processing loop of `main` (fetch-schools.ts, lines 939-943): one
output School per raw record, in input order, no deduplication. -/
def processAllSchools (rawData : List RawSchoolData) : List School :=
  rawData.map processSchoolData

/-- The serialized `schools` list of the output document: the processed
records sorted with `schoolCompare`. -/
def outputSchools (rawData : List RawSchoolData) : List School :=
  jsSortBy schoolCompare (processAllSchools rawData)

/-! ## Retrying HTTP client (`fetchWithRetry`) -/

/-- What one `fetch` attempt produces: an HTTP response with a status code,
or a transport-level failure (the promise rejects). -/
inductive AttemptOutcome
  | response (status : Nat)
  | transportFailure
deriving DecidableEq, Repr

/-- The error a `fetchWithRetry` call can terminate with: the distinct
`'NOT_FOUND'` error, a generic `HTTP <status>` error, a propagated transport
failure, or `'Max retries exceeded'`. -/
inductive FetchError
  | notFound
  | httpStatus (status : Nat)
  | transportFailure
  | maxRetriesExceeded
deriving DecidableEq, Repr

/-- Outcome of a `fetchWithRetry` call. -/
inductive FetchResult
  | ok (status : Nat)
  | error (e : FetchError)
deriving DecidableEq, Repr

/-- `Response.ok`: status in the 2xx range. -/
def respOk (status : Nat) : Bool :=
  200 ≤ status && status ≤ 299

/-- Full observable behaviour of one `fetchWithRetry` call: its result, how
many `fetch` attempts it performed, and the sleeps (in ms, in order) it
performed between attempts. -/
structure FetchTrace where
  result : FetchResult
  attemptsMade : Nat
  delaysMs : List Nat
deriving DecidableEq, Repr

/-- The `for (let i = 0; i < retries; i++)` loop of `fetchWithRetry`
(fetch-schools.ts, lines 90-112), with the environment `env` giving the
outcome of attempt `i`. Any error thrown inside the `try` — including the
distinct `NOT_FOUND` thrown on HTTP 404 — is caught by the `catch`, which
rethrows it only on the last iteration and otherwise sleeps
`1000 * (i + 1)` ms and retries; HTTP 429 sleeps `2000 * (i + 1)` ms and
`continue`s without counting as a hard failure. `fuel` is the number of loop
iterations left (`retries - i`). -/
def fetchLoop (env : Nat → AttemptOutcome) (retries : Nat) :
    Nat → Nat → List Nat → FetchTrace
  | i, 0, delays => ⟨.error .maxRetriesExceeded, i, delays.reverse⟩
  | i, fuel + 1, delays =>
    match env i with
    | .response st =>
      if respOk st then ⟨.ok st, i + 1, delays.reverse⟩
      else if st = 429 then
        fetchLoop env retries (i + 1) fuel (2000 * (i + 1) :: delays)
      else
        let err := if st = 404 then FetchError.notFound else FetchError.httpStatus st
        if i = retries - 1 then ⟨.error err, i + 1, delays.reverse⟩
        else fetchLoop env retries (i + 1) fuel (1000 * (i + 1) :: delays)
    | .transportFailure =>
      if i = retries - 1 then ⟨.error .transportFailure, i + 1, delays.reverse⟩
      else fetchLoop env retries (i + 1) fuel (1000 * (i + 1) :: delays)

/-- `fetchWithRetry(url, retries = 3)` under the attempt environment `env`. -/
def fetchWithRetry (env : Nat → AttemptOutcome) (retries : Nat := 3) : FetchTrace :=
  fetchLoop env retries 0 retries []

/-! ## Concrete fixtures for witnesses and counterexamples -/

/-- Shorthand for a `StatValue`. -/
def mkStat (v vt tp : String) : StatValue :=
  ⟨v, vt, tp⟩

/-- A grundskola statistics body with every key absent. -/
def emptyGrStats : GrundskoleStatisticsBody :=
  ⟨none, none, none, none, none, none, none, none, none, []⟩

/-- A compact record with fixed valid coordinates. -/
def mkCompact (code nm : String) : CompactSchoolUnit :=
  ⟨code, nm, "59.33", "18.06", false⟩

/-- A raw record with no detail record and no gymnasium statistics. -/
def mkRawBasic (code nm : String) (stats : Option GrundskoleStatisticsBody) :
    RawSchoolData :=
  ⟨code, mkCompact code nm, none, stats, none⟩

/-- Statistics with one `EXISTS` grade-9 merit observation and one `EXISTS`
grade-6 pass-rate observation. -/
def c1Stats : GrundskoleStatisticsBody :=
  { emptyGrStats with
    averageGradesMeritRating9thGrade := some [mkStat "217,6" "EXISTS" "2023"]
    ratioOfPupilsIn6thGradeWithAllSubjectsPassed := some [mkStat "88,9" "EXISTS" "2023"] }

/-- Detail record whose schooling-type codes are `["gr"]` (no `gy`). -/
def c1Details : SchoolDetailBody :=
  { code := "11110001"
    name := "Vikens Gymnasium"
    principalOrganizerType := some "Kommunal"
    typeOfSchooling := some [⟨"gr", "Grundskolan", ["1", "2", "3", "6", "9"]⟩]
    contactInfo := none
    geographicalAreaCode := none }

/-- An entity with grade-9 and grade-6 `EXISTS` observations, no `gy` code and
no gymnasium program metrics, whose name contains "Gymnasium". -/
def c1Raw : RawSchoolData :=
  { schoolUnitCode := "11110001"
    compactData := mkCompact "11110001" "Vikens Gymnasium"
    details := some c1Details
    statistics := some c1Stats
    gymnasiumStatistics := none }

/-- The same entity with a neutral name. -/
def c1GoodRaw : RawSchoolData :=
  { c1Raw with
    compactData := mkCompact "11110001" "Vikens Skola"
    details := some { c1Details with name := "Vikens Skola" } }

/-- Attempt environment: first attempt HTTP 404, every later attempt HTTP 200. -/
def c2Env404Then200 : Nat → AttemptOutcome :=
  fun i => if i = 0 then .response 404 else .response 200

/-- Attempt environment: every attempt HTTP 404. -/
def c2EnvAll404 : Nat → AttemptOutcome :=
  fun _ => .response 404

/-- Statistics whose only `EXISTS` grade-6 observation is in the English
subject test. -/
def c3Stats : GrundskoleStatisticsBody :=
  { emptyGrStats with
    averageResultNationalTestsSubjectENG6thGrade := some [mkStat "14,2" "EXISTS" "2023"] }

/-- Two raw records sharing the identifier `12345678`. -/
def c4RawA : RawSchoolData := mkRawBasic "12345678" "Alfaskolan" none

/-- See `c4RawA`. -/
def c4RawB : RawSchoolData := mkRawBasic "12345678" "Betaskolan" none

/-- A raw record with an identifier distinct from `c4RawA`'s. -/
def c4RawC : RawSchoolData := mkRawBasic "22223333" "Gammaskolan" none

/-- Program with eligibility 80. -/
def c7ProgA : GymnasiumProgram :=
  { code := "NA", universityEligibilityRate := some 80, gradePoints := some 14,
    graduationRate := some 90, admissionPointsAvg := none, admissionPointsMin := none }

/-- Program lacking the eligibility field (but retained: it has grade points). -/
def c7ProgB : GymnasiumProgram :=
  { code := "SA", universityEligibilityRate := none, gradePoints := some 12,
    graduationRate := some 85, admissionPointsAvg := none, admissionPointsMin := none }

/-- Program with eligibility 60. -/
def c7ProgC : GymnasiumProgram :=
  { code := "EK", universityEligibilityRate := some 60, gradePoints := some 13,
    graduationRate := some 80, admissionPointsAvg := none, admissionPointsMin := none }

/-- Three retained programs with eligibility rates `[80, null, 60]`. -/
def c7Programs : List GymnasiumProgram := [c7ProgA, c7ProgB, c7ProgC]

/-- Gymnasium statistics producing exactly `c7Programs`. -/
def c7GymStats : GymnasiumStatisticsBody :=
  { programMetrics := some
      [{ programCode := "NA"
         ratioOfStudentsEligibleForUndergraduateEducation := some [mkStat "80,0" "EXISTS" "2023"]
         gradesPointsForStudents := some [mkStat "14,0" "EXISTS" "2023"]
         gradesPointsForStudentsWithExam := none
         ratioOfPupilsWithExamWithin3Years := some [mkStat "90,0" "EXISTS" "2023"]
         admissionPointsMin := none
         admissionPointsAverage := none
         totalNumberOfPupils := none },
       { programCode := "SA"
         ratioOfStudentsEligibleForUndergraduateEducation := none
         gradesPointsForStudents := some [mkStat "12,0" "EXISTS" "2023"]
         gradesPointsForStudentsWithExam := none
         ratioOfPupilsWithExamWithin3Years := some [mkStat "85,0" "EXISTS" "2023"]
         admissionPointsMin := none
         admissionPointsAverage := none
         totalNumberOfPupils := none },
       { programCode := "EK"
         ratioOfStudentsEligibleForUndergraduateEducation := some [mkStat "60,0" "EXISTS" "2023"]
         gradesPointsForStudents := some [mkStat "13,0" "EXISTS" "2023"]
         gradesPointsForStudentsWithExam := none
         ratioOfPupilsWithExamWithin3Years := some [mkStat "80,0" "EXISTS" "2023"]
         admissionPointsMin := none
         admissionPointsAverage := none
         totalNumberOfPupils := none }]
    studentsPerTeacherQuota := none
    certifiedTeachersQuota := none
    totalNumberOfPupils := none }

/-- A processed school with the given category, merit value and grade-6 pass
rate, everything else defaulted. -/
def mkTestSchool (cat : SchoolCategory) (merit pass6 : Option Rat) : School :=
  { id := "00000000"
    name := "Testskolan"
    coordinates := (none, none)
    municipality := "Unknown"
    ownership := .independent
    category := cat
    schoolTypes := []
    grades := []
    address := ⟨"", "", ""⟩
    statistics :=
      { meritValue := merit
        meritHistory := []
        passRateGrade9 := none
        passRateGrade6 := pass6
        avgTestSwedish6 := none
        avgTestEnglish6 := none
        avgTestMath6 := none
        universityEligibilityRate := none
        gradePoints := none
        graduationRate := none
        programs := []
        studentsPerTeacher := none
        certifiedTeachersRatio := none
        totalPupils := none } }

/-- An `F-9` school with merit 310. -/
def c8s310 : School := mkTestSchool .F9 (some 310) none

/-- An `F-9` school with merit 250. -/
def c8s250 : School := mkTestSchool .F9 (some 250) none

/-- An `F-9` school with a very low merit. -/
def c8f9low : School := mkTestSchool .F9 (some 10) none

/-- A `7-9` school with a very high merit. -/
def c8s79hi : School := mkTestSchool .S79 (some 330) none

/-- An `EXISTS` observation for period `y` with value `v`. -/
def c9Entry (y v : String) : StatValue := mkStat v "EXISTS" y

/-- Eight `EXISTS` observations, newest first. -/
def c9Input8 : List StatValue :=
  [c9Entry "2023" "240,1", c9Entry "2022" "238,0", c9Entry "2021" "235,5",
   c9Entry "2020" "233,2", c9Entry "2019" "230,0", c9Entry "2018" "228,4",
   c9Entry "2017" "226,1", c9Entry "2016" "225,0"]

/-- A raw record whose detail record is absent (e.g. the detail fetch hit a
404 and `fetchSchoolDetails` returned `null`). -/
def c10Raw : RawSchoolData :=
  mkRawBasic "55556666" "Nya Skolan" (some emptyGrStats)

/-! ## Helper lemmas -/

/-- Inserting with `jsInsertSorted` permutes to consing. -/
theorem jsInsertSorted_perm (cmp : α → α → Rat) (a : α) (l : List α) :
    List.Perm (jsInsertSorted cmp a l) (a :: l) := by
  induction l with
  | nil => exact List.Perm.refl _
  | cons b t ih =>
    simp only [jsInsertSorted]
    split
    · exact (ih.cons b).trans (List.Perm.swap a b t)
    · exact List.Perm.refl _

/-- `jsSortBy` permutes its input. -/
theorem jsSortBy_perm (cmp : α → α → Rat) (l : List α) :
    List.Perm (jsSortBy cmp l) l := by
  suffices h : ∀ acc : List α,
      List.Perm (List.foldl (fun acc x => jsInsertSorted cmp x acc) acc l) (l ++ acc) by
    simpa using h []
  induction l with
  | nil => intro acc; simp
  | cons x t ih =>
    intro acc
    simp only [List.foldl_cons]
    exact ((ih (jsInsertSorted cmp x acc)).trans
      (List.Perm.append_left t (jsInsertSorted_perm cmp x acc))).trans
      List.perm_middle

/-- `firstExistsValue` is the parse of the first `EXISTS` entry. -/
theorem firstExistsValue_eq_find (l : List StatValue) :
    firstExistsValue l =
      (l.find? (fun e => e.valueType == "EXISTS")).bind
        (fun e => parseSwedishNumber (some e.value)) := by
  induction l with
  | nil => rfl
  | cons e t ih =>
    by_cases h : e.valueType = "EXISTS"
    · have hb : (e.valueType == "EXISTS") = true := by simp [h]
      simp [firstExistsValue, List.find?, h, hb]
    · have hb : (e.valueType == "EXISTS") = false := by simp [h]
      simp [firstExistsValue, List.find?, h, hb, ih]

/-- `firstExistsValue` skips a run of non-`EXISTS` entries and does not look
past the first `EXISTS` entry. -/
theorem firstExistsValue_append (l₁ : List StatValue) (e : StatValue)
    (l₂ : List StatValue) (h₁ : ∀ x ∈ l₁, x.valueType ≠ "EXISTS")
    (he : e.valueType = "EXISTS") :
    firstExistsValue (l₁ ++ e :: l₂) = parseSwedishNumber (some e.value) := by
  induction l₁ with
  | nil => simp [firstExistsValue, he]
  | cons x t ih =>
    have hx : x.valueType ≠ "EXISTS" := h₁ x (by simp)
    simpa [firstExistsValue, hx] using ih (fun y hy => h₁ y (by simp [hy]))

/-! ## Claim theorems -/

/-- C5: `parseSwedishNumber` maps the comma to a period and parses as a float:
`"217,6"` parses to `217.6` (= 1088/5); the sentinels `"."` and `"-"`, the
empty string, `undefined` and non-numeric input such as `"abc"` all yield
`null` (never zero, never `NaN` — the result type has no `NaN` and the listed
inputs produce `none`, not `some 0`); every non-sentinel, non-empty string is
parsed by `parseFloat` after the comma replacement. -/
theorem parseSwedishNumber_spec :
    parseSwedishNumber (some "217,6") = some (1088 / 5 : Rat) ∧
    parseSwedishNumber (some ".") = none ∧
    parseSwedishNumber (some "-") = none ∧
    parseSwedishNumber (some "") = none ∧
    parseSwedishNumber none = none ∧
    parseSwedishNumber (some "abc") = none ∧
    (∀ s : String, s ≠ "" → s ≠ "." → s ≠ "-" →
      parseSwedishNumber (some s) = jsParseFloat (replaceFirstComma s)) := by
  refine ⟨by with_unfolding_all decide, by decide, by decide, by decide, rfl,
    by decide, ?_⟩
  intro s h1 h2 h3
  simp [parseSwedishNumber, h1, h2, h3]

/-- C5 witness: the general clause of `parseSwedishNumber_spec` applied to the
concrete input `"217,6"`. -/
theorem parseSwedishNumber_spec_witness :
    parseSwedishNumber (some "217,6") = jsParseFloat (replaceFirstComma "217,6") :=
  parseSwedishNumber_spec.2.2.2.2.2.2 "217,6" (by decide) (by decide) (by decide)

/-- C6: `getMostRecentValue` returns the parsed value of the first `EXISTS`
entry; `none` for a missing, empty or `EXISTS`-free sequence; entries after
the first `EXISTS` entry are never consulted (replacing the tail does not
change the result); spec example included. -/
theorem getMostRecentValue_spec :
    (∀ l : List StatValue,
      getMostRecentValue (some l) =
        (l.find? (fun e => e.valueType == "EXISTS")).bind
          (fun e => parseSwedishNumber (some e.value))) ∧
    getMostRecentValue none = none ∧
    (∀ (l₁ : List StatValue) (e : StatValue) (l₂ l₂' : List StatValue),
      (∀ x ∈ l₁, x.valueType ≠ "EXISTS") → e.valueType = "EXISTS" →
      getMostRecentValue (some (l₁ ++ e :: l₂)) = parseSwedishNumber (some e.value) ∧
      getMostRecentValue (some (l₁ ++ e :: l₂)) =
        getMostRecentValue (some (l₁ ++ e :: l₂'))) ∧
    getMostRecentValue
      (some [mkStat "217,6" "EXISTS" "2023", mkStat "-" "MISSING" "2022"]) =
      some (1088 / 5 : Rat) := by
  have hmain : ∀ l : List StatValue,
      getMostRecentValue (some l) =
        (l.find? (fun e => e.valueType == "EXISTS")).bind
          (fun e => parseSwedishNumber (some e.value)) := by
    intro l
    cases l with
    | nil => rfl
    | cons e t =>
      simp only [getMostRecentValue, List.length_cons]
      rw [if_neg (by omega)]
      exact firstExistsValue_eq_find (e :: t)
  refine ⟨hmain, rfl, ?_, by with_unfolding_all decide⟩
  intro l₁ e l₂ l₂' h₁ he
  have hne : ∀ l₂'' : List StatValue,
      getMostRecentValue (some (l₁ ++ e :: l₂'')) = parseSwedishNumber (some e.value) := by
    intro l₂''
    have hlen : (l₁ ++ e :: l₂'').length ≠ 0 := by simp
    simp only [getMostRecentValue]
    rw [if_neg hlen]
    exact firstExistsValue_append l₁ e l₂'' h₁ he
  exact ⟨hne l₂, (hne l₂).trans (hne l₂').symm⟩

/-- C6 witness: `getMostRecentValue_spec`'s third clause applied to a concrete
sequence whose first entry is suppressed and whose second entry exists. -/
theorem getMostRecentValue_spec_witness :
    getMostRecentValue
      (some ([mkStat "-" "MISSING" "2024"] ++
        mkStat "217,6" "EXISTS" "2023" :: [mkStat "100,0" "EXISTS" "2022"])) =
      parseSwedishNumber (some (mkStat "217,6" "EXISTS" "2023").value) ∧
    getMostRecentValue
      (some ([mkStat "-" "MISSING" "2024"] ++
        mkStat "217,6" "EXISTS" "2023" :: [mkStat "100,0" "EXISTS" "2022"])) =
      getMostRecentValue
        (some ([mkStat "-" "MISSING" "2024"] ++ mkStat "217,6" "EXISTS" "2023" :: [])) :=
  getMostRecentValue_spec.2.2.1 [mkStat "-" "MISSING" "2024"]
    (mkStat "217,6" "EXISTS" "2023") [mkStat "100,0" "EXISTS" "2022"] []
    (by decide) rfl

/-- C9: `getMeritHistory` keeps exactly the `EXISTS` entries in their original
order, maps each to `{period, value}` with an unparseable value coerced to 0,
truncates to the first 5; 8 `EXISTS` entries yield exactly the first 5,
newest-first. -/
theorem getMeritHistory_spec :
    (∀ l : List StatValue,
      getMeritHistory (some l) =
        (((l.filter (fun e => e.valueType == "EXISTS")).map
          (fun e => HistoryEntry.mk e.timePeriod
            ((parseSwedishNumber (some e.value)).getD 0))).take 5)) ∧
    getMeritHistory none = [] ∧
    (∀ l : List StatValue,
      (getMeritHistory (some l)).length =
        min (l.countP (fun e => e.valueType == "EXISTS")) 5) ∧
    (∀ l : List StatValue,
      (getMeritHistory (some l)).map (fun h => h.year) =
        ((l.filter (fun e => e.valueType == "EXISTS")).map
          (fun e => e.timePeriod)).take 5) ∧
    (getMeritHistory (some c9Input8)).length = 5 ∧
    getMeritHistory (some c9Input8) =
      [⟨"2023", 2401 / 10⟩, ⟨"2022", 238⟩, ⟨"2021", 471 / 2⟩,
       ⟨"2020", 1166 / 5⟩, ⟨"2019", 230⟩] ∧
    getMeritHistory (some [mkStat "-" "EXISTS" "2021"]) = [⟨"2021", 0⟩] := by
  refine ⟨fun l => rfl, rfl, ?_, ?_, by with_unfolding_all decide,
    by with_unfolding_all decide, by with_unfolding_all decide⟩
  · intro l
    simp [getMeritHistory, List.length_take, List.countP_eq_length_filter,
      Nat.min_comm]
  · intro l
    simp only [getMeritHistory, List.map_take, List.map_map]
    rfl

/-- C1 counterexample: `c1Raw` satisfies every hypothesis of the claim (an
`EXISTS` grade-9 merit observation, an `EXISTS` grade-6 pass-rate observation,
no upper-secondary schooling code, no gymnasium program metrics), yet because
its name contains "gymnasium" the classifier returns `gymnasium`, not `F-9`:
the name keyword is checked before the statistics signals. -/
theorem determineCategory_gymName_counterexample :
    hasGrade9Signal c1Raw.statistics = true ∧
    hasGrade6Signal c1Raw.statistics = true ∧
    grade6SignalSpec c1Raw.statistics = true ∧
    (schoolingCodesOf c1Raw).contains "gy" = false ∧
    hasGymnasiumMetrics c1Raw.gymnasiumStatistics = false ∧
    strHas (lowerName c1Raw) "gymnasium" = true ∧
    determineCategory c1Raw = SchoolCategory.gymnasium ∧
    determineCategory c1Raw ≠ SchoolCategory.F9 := by
  with_unfolding_all decide

/-- C1 (amended): an entity with both statistics-presence signals, no
upper-secondary schooling code, no gymnasium program metrics — and whose
lowercased name avoids the keywords "gymnasium"/"gymnasie"/"anpassad" and
whose codes do not include the special-needs code — classifies as `F-9`. -/
theorem determineCategory_F9_of_signals (raw : RawSchoolData)
    (h9 : hasGrade9Signal raw.statistics = true)
    (h6 : hasGrade6Signal raw.statistics = true)
    (hgy : (schoolingCodesOf raw).contains "gy" = false)
    (hpm : hasGymnasiumMetrics raw.gymnasiumStatistics = false)
    (hn1 : strHas (lowerName raw) "gymnasium" = false)
    (hn2 : strHas (lowerName raw) "gymnasie" = false)
    (hgran : (schoolingCodesOf raw).contains "gran" = false)
    (hn3 : strHas (lowerName raw) "anpassad" = false) :
    determineCategory raw = SchoolCategory.F9 := by
  have hgy' : ¬ "gy" ∈ schoolingCodesOf raw := by simpa using hgy
  have hgran' : ¬ "gran" ∈ schoolingCodesOf raw := by simpa using hgran
  simp [determineCategory, h9, h6, hgy', hpm, hn1, hn2, hgran', hn3]

/-- C1 witness: the amended theorem applied to the same entity with a neutral
name. -/
theorem determineCategory_F9_of_signals_witness :
    determineCategory c1GoodRaw = SchoolCategory.F9 :=
  determineCategory_F9_of_signals c1GoodRaw (by with_unfolding_all decide)
    (by with_unfolding_all decide) (by with_unfolding_all decide)
    (by with_unfolding_all decide) (by with_unfolding_all decide)
    (by with_unfolding_all decide) (by with_unfolding_all decide)
    (by with_unfolding_all decide)

/-- C2 exhibit: a 404 on the first attempt does not fail `fetchWithRetry`
immediately — the thrown `NOT_FOUND` error is caught by the retry `catch`,
a 1000 ms delay is performed, and a second attempt is made (which here
succeeds with HTTP 200); only when every attempt returns 404 does the call
fail with `NOT_FOUND`, after 3 attempts and two delays. -/
theorem fetchWithRetry_404_is_retried :
    fetchWithRetry c2Env404Then200 3 =
      { result := .ok 200, attemptsMade := 2, delaysMs := [1000] } ∧
    fetchWithRetry c2EnvAll404 3 =
      { result := .error .notFound, attemptsMade := 3, delaysMs := [1000, 2000] } := by
  decide

/-- C3 counterexample: on statistics whose only `EXISTS` grade-6 observation
is the English subject test, the spec-worded signal (pass rate or any of the
three subject tests) is true but the code's grade-6 signal is false — the
claimed equivalence fails. -/
theorem grade6Signal_ignores_english_test :
    grade6SignalSpec (some c3Stats) = true ∧
    hasGrade6Signal (some c3Stats) = false ∧
    ¬ (hasGrade6Signal (some c3Stats) = true ↔ grade6SignalSpec (some c3Stats) = true) := by
  decide

/-- C3 (amended): the grade-6 signal is true iff the grade-6 pass rate or the
grade-6 Swedish subject test has at least one `EXISTS` observation; the
English and Math subject tests are not consulted. -/
theorem hasGrade6Signal_iff (s : GrundskoleStatisticsBody) :
    hasGrade6Signal (some s) = true ↔
      ((∃ v ∈ (s.ratioOfPupilsIn6thGradeWithAllSubjectsPassed).getD [],
          v.valueType = "EXISTS") ∨
       (∃ v ∈ (s.averageResultNationalTestsSubjectSVE6thGrade).getD [],
          v.valueType = "EXISTS")) := by
  rcases s with ⟨a1, a2, a3, a4, a5, a6, a7, a8, a9, ek⟩
  cases a3 <;> cases a4 <;>
    simp [hasGrade6Signal, hasExistsEntry, List.any_eq_true]

/-- C4 counterexample: two raw records sharing the identifier `12345678` both
reach the serialized output — the processing loop performs no deduplication —
so the output ids are not pairwise distinct. -/
theorem outputSchools_duplicate_ids :
    ((outputSchools [c4RawA, c4RawB]).map (fun s => s.id)) = ["12345678", "12345678"] ∧
    ¬ ((outputSchools [c4RawA, c4RawB]).map (fun s => s.id)).Nodup := by
  with_unfolding_all decide

/-- C4 (amended): the output ids are exactly the input records' compact
identifiers (as a multiset), so whenever the raw snapshot's identifiers are
pairwise distinct — as fetched catalogs are — the serialized output's ids are
pairwise distinct. -/
theorem outputSchools_ids_nodup (rawData : List RawSchoolData)
    (h : (rawData.map (fun r => r.compactData.schoolUnitCode)).Nodup) :
    ((outputSchools rawData).map (fun s => s.id)).Nodup := by
  have hperm : List.Perm (outputSchools rawData) (processAllSchools rawData) :=
    jsSortBy_perm schoolCompare (processAllSchools rawData)
  have hmap : (processAllSchools rawData).map (fun s => s.id) =
      rawData.map (fun r => r.compactData.schoolUnitCode) := by
    simp only [processAllSchools, List.map_map]
    rfl
  exact ((hperm.map (fun s => s.id)).nodup_iff).mpr (hmap.symm ▸ h)

/-- C4 witness: the amended theorem on two records with distinct identifiers. -/
theorem outputSchools_ids_nodup_witness :
    ((outputSchools [c4RawA, c4RawC]).map (fun s => s.id)).Nodup :=
  outputSchools_ids_nodup [c4RawA, c4RawC] (by decide)

/-- C7: the entity-level gymnasium aggregate is `none` when no program has the
field; when it is `some m`, `m` times the number of programs having the field
equals their sum (unweighted mean with the non-absent values as divisor);
eligibility rates `[80, null, 60]` (through the full program-processing
pipeline) average to 70; and every retained program has at least one of the
three headline fields non-absent. -/
theorem gymnasiumAverage_spec :
    (∀ (ps : List GymnasiumProgram) (f : GymnasiumProgram → Option Rat),
      (∀ p ∈ ps, f p = none) → calculateGymnasiumAverage ps f = none) ∧
    (∀ (ps : List GymnasiumProgram) (f : GymnasiumProgram → Option Rat) (m : Rat),
      calculateGymnasiumAverage ps f = some m →
      m * ((ps.filterMap f).length : Rat) = (ps.filterMap f).foldl (· + ·) 0) ∧
    processGymnasiumPrograms (some c7GymStats) = c7Programs ∧
    calculateGymnasiumAverage (processGymnasiumPrograms (some c7GymStats))
      (fun p => p.universityEligibilityRate) = some (70 : Rat) ∧
    (∀ (g : Option GymnasiumStatisticsBody) (p : GymnasiumProgram),
      p ∈ processGymnasiumPrograms g →
      (p.universityEligibilityRate.isSome || p.gradePoints.isSome ||
        p.graduationRate.isSome) = true) := by
  refine ⟨?_, ?_, by with_unfolding_all decide, by with_unfolding_all decide, ?_⟩
  · intro ps f h
    have hnil : ps.filterMap f = [] := List.filterMap_eq_nil_iff.mpr h
    simp [calculateGymnasiumAverage, hnil]
  · intro ps f m hm
    simp only [calculateGymnasiumAverage] at hm
    split at hm
    · exact absurd hm (by simp)
    · rename_i hlen
      have hm' : (ps.filterMap f).foldl (· + ·) 0 / ((ps.filterMap f).length : Rat) = m :=
        Option.some.inj hm
      have hne : ((ps.filterMap f).length : Rat) ≠ 0 := by
        exact_mod_cast hlen
      rw [← hm', div_mul_cancel₀ _ hne]
  · intro g p hp
    cases hb : g.bind (fun gs => gs.programMetrics) with
    | none => simp [processGymnasiumPrograms, hb] at hp
    | some pms =>
      simp only [processGymnasiumPrograms, hb] at hp
      have := List.mem_filter.mp hp
      simpa using this.2

/-- C7 witness: the mean clause of `gymnasiumAverage_spec` at the concrete
program list (mean 70, divisor 2). -/
theorem gymnasiumAverage_spec_witness :
    (70 : Rat) *
        ((c7Programs.filterMap (fun p => p.universityEligibilityRate)).length : Rat) =
      (c7Programs.filterMap (fun p => p.universityEligibilityRate)).foldl (· + ·) 0 :=
  gymnasiumAverage_spec.2.1 c7Programs (fun p => p.universityEligibilityRate) 70
    (by with_unfolding_all decide)

/-- C8: the output comparator orders by category priority
`F-9 < 7-9 < F-6 < gymnasium < anpassad < other` first (lower priority value
sorts first), and within an equal category descending by the performance
proxy (merit, else grade-6 pass rate, else 0); concretely, merit 310 sorts
before merit 250 among `F-9` schools, and an `F-9` school sorts before a
`7-9` school despite a far higher merit on the latter. -/
theorem schoolSort_spec :
    (catOrder .F9 < catOrder .S79 ∧ catOrder .S79 < catOrder .F6 ∧
     catOrder .F6 < catOrder .gymnasium ∧ catOrder .gymnasium < catOrder .anpassad ∧
     catOrder .anpassad < catOrder .other) ∧
    (∀ a b : School, catOrder a.category < catOrder b.category → schoolCompare a b < 0) ∧
    (∀ a b : School, a.category = b.category →
      (schoolCompare a b < 0 ↔ meritProxy b < meritProxy a)) ∧
    jsSortBy schoolCompare [c8s250, c8s310] = [c8s310, c8s250] ∧
    jsSortBy schoolCompare [c8s79hi, c8f9low] = [c8f9low, c8s79hi] := by
  refine ⟨by decide, ?_, ?_, by with_unfolding_all decide, by with_unfolding_all decide⟩
  · intro a b h
    have hne : catOrder a.category ≠ catOrder b.category := by omega
    simp only [schoolCompare, if_pos hne]
    have hi : (catOrder a.category - catOrder b.category : Int) < 0 := by omega
    exact_mod_cast hi
  · intro a b h
    have hne : ¬ catOrder a.category ≠ catOrder b.category := by simp [h]
    simp only [schoolCompare, if_neg hne]
    exact sub_neg

/-- C8 witness: the category clause of `schoolSort_spec` applied to a concrete
`F-9`/`7-9` pair. -/
theorem schoolSort_spec_witness :
    schoolCompare c8f9low c8s79hi < 0 :=
  schoolSort_spec.2.1 c8f9low c8s79hi (by decide)

/-- C10: a raw record whose detail record is absent is still processed (the
embedding is total by construction) into a School with municipality
`"Unknown"`, ownership `independent`, empty street/postal-code/city and empty
schooling-type and grade lists, and it still appears in the serialized
output. -/
theorem processSchoolData_absent_details (raw : RawSchoolData)
    (rawData : List RawSchoolData) (h : raw.details = none) (hmem : raw ∈ rawData) :
    (processSchoolData raw).municipality = "Unknown" ∧
    (processSchoolData raw).ownership = Ownership.independent ∧
    (processSchoolData raw).address = ⟨"", "", ""⟩ ∧
    (processSchoolData raw).schoolTypes = [] ∧
    (processSchoolData raw).grades = [] ∧
    processSchoolData raw ∈ outputSchools rawData := by
  refine ⟨?_, ?_, ?_, ?_, ?_, ?_⟩
  · simp [processSchoolData, h, jsStrOr]
  · simp [processSchoolData, h]
  · simp [processSchoolData, h, jsStrOr]
  · simp [processSchoolData, h]
  · simp [processSchoolData, h, jsSetDedup, jsSetDedupAux, jsSortBy]
  · exact ((jsSortBy_perm schoolCompare (processAllSchools rawData)).mem_iff).mpr
      (List.mem_map_of_mem processSchoolData hmem)

/-- C10 witness: `processSchoolData_absent_details` at a concrete record with
a `null` detail record. -/
theorem processSchoolData_absent_details_witness :
    (processSchoolData c10Raw).municipality = "Unknown" ∧
    (processSchoolData c10Raw).ownership = Ownership.independent ∧
    (processSchoolData c10Raw).address = ⟨"", "", ""⟩ ∧
    (processSchoolData c10Raw).schoolTypes = [] ∧
    (processSchoolData c10Raw).grades = [] ∧
    processSchoolData c10Raw ∈ outputSchools [c10Raw] :=
  processSchoolData_absent_details c10Raw [c10Raw] rfl (by simp)
